import Mathlib

set_option maxHeartbeats 1000000

/-!
Verification of the transformation and endpoint logic of the info-orbs proxy
(src/orbs-proxy.py).  Upstream JSON payloads are modelled by the inductive
type `JValue`; the dynamic (duck-typed) Python operations the source uses
(`dict.get`, the `in` operator, subscription, `str.lower`, iteration,
slicing, truthiness, `== 0`) are modelled as `Except`-valued functions that
return `.error` exactly where the Python operation would raise
(`TypeError`, `KeyError`, `AttributeError`).  The two transformers
`transform_data_tempest` and `transform_data_parquet` and the helpers
`get_perf` / `get_perf_chart` are then translated statement by statement.
-/

namespace OrbsProxy

/-- JSON values as produced by `response.json()`:
null, booleans, numbers, strings, arrays and objects. -/
inductive JValue where
  | null
  | bool (b : Bool)
  | num (q : ℚ)
  | str (s : String)
  | arr (elems : List JValue)
  | obj (fields : List (String × JValue))

/-- First-match association-list lookup (Python dicts have unique keys,
so first-match agrees with dict lookup). -/
def lookupKV : List (String × JValue) → String → Option JValue
  | [], _ => none
  | (k, v) :: rest, key => if k = key then some v else lookupKV rest key

/-- Python truthiness of a JSON value (`if x:`). -/
def truthy : JValue → Bool
  | .null => false
  | .bool b => b
  | .num q => decide (q ≠ 0)
  | .str s => decide (s ≠ "")
  | .arr xs => !xs.isEmpty
  | .obj kvs => !kvs.isEmpty

/-- Python `x == 0` on a JSON value: true for the number `0` (int or float)
and for `False`; every other value compares unequal to `0`. -/
def pyEqZero : JValue → Bool
  | .num q => decide (q = 0)
  | .bool b => !b
  | _ => false

/-- Is this value a JSON object (Python dict)? -/
def isObjV : JValue → Bool
  | .obj _ => true
  | _ => false

/-- `s2` occurs as a contiguous substring of `s1` (Python `s2 in s1`). -/
def strHasSub (hay pat : String) : Bool :=
  (List.range (hay.data.length + 1)).any fun i => pat.data.isPrefixOf (hay.data.drop i)

/-- Whether a JSON array element equals the Python string `k`
(used by the `in` operator on lists). -/
def jStrEq (k : String) : JValue → Bool
  | .str s => s = k
  | _ => false

/-- Python `k in v` for a string `k`: key test on dicts, membership on
lists, substring test on strings; raises `TypeError` otherwise. -/
def pyContains (k : String) : JValue → Except String Bool
  | .obj kvs => .ok (lookupKV kvs k).isSome
  | .arr xs => .ok (xs.any (jStrEq k))
  | .str s => .ok (strHasSub s k)
  | _ => .error "TypeError"

/-- Python `v[k]` for a string key `k`: dict subscription; raises
`KeyError` when the key is missing and `TypeError` on non-dicts. -/
def pyGetItem : JValue → String → Except String JValue
  | .obj kvs, k =>
    match lookupKV kvs k with
    | some v => .ok v
    | none => .error "KeyError"
  | _, _ => .error "TypeError"

/-- Python `v.get(k, d)`: only dicts have `.get`; anything else raises
`AttributeError`. -/
def pyDictGet : JValue → String → JValue → Except String JValue
  | .obj kvs, k, d => .ok ((lookupKV kvs k).getD d)
  | _, _, _ => .error "AttributeError"

/-- Lower-casing of a string, character by character (models Python
`str.lower`; the payload strings of interest are ASCII). -/
def strLower (s : String) : String := String.mk (s.data.map Char.toLower)

/-- Python `v.lower()`: only strings have `.lower`. -/
def pyLower : JValue → Except String String
  | .str s => .ok (strLower s)
  | _ => .error "AttributeError"

/-- Python `for x in v`: lists yield their elements, strings their
characters (as one-character strings), dicts their keys; other values
raise `TypeError`. -/
def pyIter : JValue → Except String (List JValue)
  | .arr xs => .ok xs
  | .str s => .ok (s.data.map fun c => .str (String.mk [c]))
  | .obj kvs => .ok (kvs.map fun kv => .str kv.1)
  | _ => .error "TypeError"

/-- Python `v[:4]` followed by iteration: first four list elements, or
first four characters of a string; other values raise `TypeError`. -/
def pySliceIter4 : JValue → Except String (List JValue)
  | .arr xs => .ok (xs.take 4)
  | .str s => .ok ((s.data.take 4).map fun c => .str (String.mk [c]))
  | _ => .error "TypeError"

/-! ### The weather transformer (`transform_data_tempest`) -/

/-- The 8-field `current_conditions` projection
(body of the `if "current_conditions" in data` block). -/
def ccFields (current_conditions : JValue) : Except String (List (String × JValue)) := do
  let air_temperature ← pyDictGet current_conditions "air_temperature" .null
  let icon ← pyDictGet current_conditions "icon" .null
  let conditions ← pyDictGet current_conditions "conditions" .null
  let feels_like ← pyDictGet current_conditions "feels_like" .null
  let relative_humidity ← pyDictGet current_conditions "relative_humidity" .null
  let station_pressure ← pyDictGet current_conditions "station_pressure" .null
  let precip_probability ← pyDictGet current_conditions "precip_probability" .null
  let wind_gust ← pyDictGet current_conditions "wind_gust" .null
  return [("air_temperature", air_temperature), ("icon", icon),
    ("conditions", conditions), ("feels_like", feels_like),
    ("relative_humidity", relative_humidity), ("station_pressure", station_pressure),
    ("precip_probability", precip_probability), ("wind_gust", wind_gust)]

/-- The `current_conditions` part of `transform_data_tempest`. -/
def transformCurrent (data : JValue) : Except String (List (String × JValue)) := do
  if (← pyContains "current_conditions" data) then
    let cc ← pyGetItem data "current_conditions"
    ccFields cc
  else
    return []

/-- The 10-field daily-forecast projection (the `filtered_daily` dict). -/
def dailyFields (daily_forecast : JValue) : Except String JValue := do
  let day_start_local ← pyDictGet daily_forecast "day_start_local" .null
  let air_temp_high ← pyDictGet daily_forecast "air_temp_high" .null
  let air_temp_low ← pyDictGet daily_forecast "air_temp_low" .null
  let conditions ← pyDictGet daily_forecast "conditions" .null
  let day_num ← pyDictGet daily_forecast "day_num" .null
  let month_num ← pyDictGet daily_forecast "month_num" .null
  let precip_probability ← pyDictGet daily_forecast "precip_probability" .null
  let precip_type ← pyDictGet daily_forecast "precip_type" .null
  let icon ← pyDictGet daily_forecast "icon" .null
  let precip_icon ← pyDictGet daily_forecast "precip_icon" .null
  return .obj [("day_start_local", day_start_local), ("air_temp_high", air_temp_high),
    ("air_temp_low", air_temp_low), ("conditions", conditions), ("day_num", day_num),
    ("month_num", month_num), ("precip_probability", precip_probability),
    ("precip_type", precip_type), ("icon", icon), ("precip_icon", precip_icon)]

/-- The `for daily_forecast in ...` loop appending `filtered_daily`. -/
def dailyLoop : List JValue → Except String (List JValue)
  | [] => .ok []
  | d :: rest => do
    let fd ← dailyFields d
    let tail ← dailyLoop rest
    return fd :: tail

/-- The forecast part of `transform_data_tempest`
(`if "forecast" in data and "daily" in data["forecast"]`). -/
def transformDaily (data : JValue) : Except String (List JValue) := do
  if (← pyContains "forecast" data) then
    let fc ← pyGetItem data "forecast"
    if (← pyContains "daily" fc) then
      let dl ← pyGetItem fc "daily"
      let items ← pySliceIter4 dl
      dailyLoop items
    else
      return []
  else
    return []

/-- `transform_data_tempest` from src/orbs-proxy.py: filters and
restructures the weather JSON. -/
def transform_data_tempest (data : JValue) : Except String JValue := do
  let cc ← transformCurrent data
  let daily ← transformDaily data
  return .obj [("current_conditions", .obj cc),
    ("forecast", .obj [("daily", .arr daily)])]

/-! ### The portfolio transformer (`transform_data_parquet`) -/

/-- `get_perf` from src/orbs-proxy.py: `data.get(perf, 0)`. -/
def get_perf (data : JValue) (perf : String) : Except String JValue :=
  pyDictGet data perf (.num 0)

/-- `get_perf_chart` from src/orbs-proxy.py:
`data.get("values", {}).get(perf_chart, 0)`. -/
def get_perf_chart (data : JValue) (perf_chart : String) : Except String JValue := do
  let values ← pyDictGet data "values" (.obj [])
  pyDictGet values perf_chart (.num 0)

/-- The body of the `for holding in data["holdings"]` loop: `.ok none`
models `continue` (the holding is dropped), `.ok (some fh)` models
appending `filtered_holding`. -/
def transformHolding (perf : String) (holding : JValue) : Except String (Option JValue) := do
  let assetTypeRaw ← pyDictGet holding "assetType" (.str "")
  let asset_type ← pyLower assetTypeRaw
  if !(["security", "crypto"].contains asset_type) then
    return none
  else
    let pos1 ← pyDictGet holding "position" (.obj [])
    let is_sold ← pyDictGet pos1 "isSold" .null
    let pos2 ← pyDictGet holding "position" (.obj [])
    let shares1 ← pyDictGet pos2 "shares" .null
    if truthy is_sold || pyEqZero shares1 then
      return none
    else
      let currency ← pyDictGet holding "currency" .null
      let asset1 ← pyDictGet holding "asset" (.obj [])
      let ident ← pyDictGet asset1 "identifier" .null
      let shared1 ← pyDictGet holding "sharedAsset" (.obj [])
      let nm ← pyDictGet shared1 "name" .null
      let perfObj1 ← pyDictGet holding "performance" (.obj [])
      let priceStart ← pyDictGet perfObj1 "priceAtIntervalStart" .null
      let perfObj2 ← pyDictGet holding "performance" (.obj [])
      let valueStart ← pyDictGet perfObj2 "purchaseValueForInterval" .null
      let pos3 ← pyDictGet holding "position" (.obj [])
      let priceNow ← pyDictGet pos3 "currentPrice" .null
      let pos4 ← pyDictGet holding "position" (.obj [])
      let valueNow ← pyDictGet pos4 "currentValue" .null
      let pos5 ← pyDictGet holding "position" (.obj [])
      let shares2 ← pyDictGet pos5 "shares" .null
      let perfObj3 ← pyDictGet holding "performance" (.obj [])
      let perfVal ← get_perf perfObj3 perf
      return some (.obj [("assetType", .str asset_type), ("currency", currency),
        ("id", ident), ("name", nm), ("priceStart", priceStart),
        ("valueStart", valueStart), ("priceNow", priceNow), ("valueNow", valueNow),
        ("shares", shares2), ("perf", perfVal)])

/-- The holdings loop, appending each kept holding in order. -/
def holdingsLoop (perf : String) : List JValue → Except String (List JValue)
  | [] => .ok []
  | h :: rest => do
    match (← transformHolding perf h) with
    | none => holdingsLoop perf rest
    | some fh =>
      let tail ← holdingsLoop perf rest
      return fh :: tail

/-- The holdings part of `transform_data_parquet`
(`if "holdings" in data:` followed by the loop). -/
def transformHoldings (data : JValue) (perf : String) : Except String (List JValue) := do
  if (← pyContains "holdings" data) then
    let hv ← pyGetItem data "holdings"
    let hs ← pyIter hv
    holdingsLoop perf hs
  else
    return []

/-- The top-level `performance` projection of `transform_data_parquet`. -/
def transformPerformance (data : JValue) (perf : String) : Except String JValue := do
  let performance_data ← pyDictGet data "performance" (.obj [])
  let valueStart ← pyDictGet performance_data "purchaseValueForInterval" .null
  let valueNow ← pyDictGet performance_data "value" .null
  let perfVal ← get_perf performance_data perf
  return .obj [("valueStart", valueStart), ("valueNow", valueNow), ("perf", perfVal)]

/-- The charts loop of `transform_data_parquet`: the `first` flag skips
the first iterated element, every later element contributes
`get_perf_chart(chart, perf_chart)`. -/
def chartsLoop (perf_chart : String) : Bool → List JValue → Except String (List JValue)
  | _, [] => .ok []
  | true, _ :: rest => chartsLoop perf_chart false rest
  | false, c :: rest => do
    let v ← get_perf_chart c perf_chart
    let tail ← chartsLoop perf_chart false rest
    return v :: tail

/-- The chart part of `transform_data_parquet` (`if "charts" in data:`). -/
def transformCharts (data : JValue) (perf_chart : String) : Except String (List JValue) := do
  if (← pyContains "charts" data) then
    let cv ← pyGetItem data "charts"
    let cs ← pyIter cv
    chartsLoop perf_chart true cs
  else
    return []

/-- `transform_data_parquet` from src/orbs-proxy.py: filters and
restructures the portfolio JSON. -/
def transform_data_parquet (data : JValue) (perf perf_chart : String) : Except String JValue := do
  let holdings ← transformHoldings data perf
  let performance ← transformPerformance data perf
  let chart ← transformCharts data perf_chart
  return .obj [("holdings", .arr holdings), ("performance", performance),
    ("chart", .arr chart)]

/-! ### Spec-side vocabulary

Total accessors and projections written after the spec's words
("get-with-default" semantics), used to state refinement theorems
against the source-translated functions above. -/

/-- Spec-side field access: the value at key `k` when `v` is an object
that holds the key, `none` otherwise. -/
def objGet : JValue → String → Option JValue
  | .obj kvs, k => lookupKV kvs k
  | _, _ => none

/-- Spec-side get-with-default accessor. -/
def objGetD (v : JValue) (k : String) (d : JValue) : JValue :=
  (objGet v k).getD d

/-- Spec-side: the 8-field `current_conditions` projection, each field
copied with absent-becomes-null semantics. -/
def currentSpec (cc : JValue) : List (String × JValue) :=
  [("air_temperature", objGetD cc "air_temperature" .null),
   ("icon", objGetD cc "icon" .null),
   ("conditions", objGetD cc "conditions" .null),
   ("feels_like", objGetD cc "feels_like" .null),
   ("relative_humidity", objGetD cc "relative_humidity" .null),
   ("station_pressure", objGetD cc "station_pressure" .null),
   ("precip_probability", objGetD cc "precip_probability" .null),
   ("wind_gust", objGetD cc "wind_gust" .null)]

/-- Spec-side: the 10-field daily-forecast projection. -/
def dailySpec (d : JValue) : JValue :=
  .obj [("day_start_local", objGetD d "day_start_local" .null),
    ("air_temp_high", objGetD d "air_temp_high" .null),
    ("air_temp_low", objGetD d "air_temp_low" .null),
    ("conditions", objGetD d "conditions" .null),
    ("day_num", objGetD d "day_num" .null),
    ("month_num", objGetD d "month_num" .null),
    ("precip_probability", objGetD d "precip_probability" .null),
    ("precip_type", objGetD d "precip_type" .null),
    ("icon", objGetD d "icon" .null),
    ("precip_icon", objGetD d "precip_icon" .null)]

/-- Spec-side: the lower-cased asset type of a holding, a missing
`assetType` defaulting to the empty string. -/
def lowerAssetType (h : JValue) : String :=
  match objGet h "assetType" with
  | some (.str s) => strLower s
  | _ => ""

/-- Spec-side holding filter: lower-cased `assetType` is `"security"` or
`"crypto"`, `position.isSold` is not truthy, and `position.shares` does
not compare equal to `0`. -/
def holdingQualifies (h : JValue) : Bool :=
  (["security", "crypto"].contains (lowerAssetType h)) &&
  !truthy (objGetD (objGetD h "position" (.obj [])) "isSold" .null) &&
  !pyEqZero (objGetD (objGetD h "position" (.obj [])) "shares" .null)

/-- Spec-side projection of a surviving holding onto the 10-field shape. -/
def projectHolding (perf : String) (h : JValue) : JValue :=
  .obj [("assetType", .str (lowerAssetType h)),
    ("currency", objGetD h "currency" .null),
    ("id", objGetD (objGetD h "asset" (.obj [])) "identifier" .null),
    ("name", objGetD (objGetD h "sharedAsset" (.obj [])) "name" .null),
    ("priceStart", objGetD (objGetD h "performance" (.obj [])) "priceAtIntervalStart" .null),
    ("valueStart", objGetD (objGetD h "performance" (.obj [])) "purchaseValueForInterval" .null),
    ("priceNow", objGetD (objGetD h "position" (.obj [])) "currentPrice" .null),
    ("valueNow", objGetD (objGetD h "position" (.obj [])) "currentValue" .null),
    ("shares", objGetD (objGetD h "position" (.obj [])) "shares" .null),
    ("perf", objGetD (objGetD h "performance" (.obj [])) perf (.num 0))]

/-- Spec-side scalar selected from one chart record:
`values[perf_chart]` with an absent `values` treated as empty and an
absent key giving `0`. -/
def chartScalarSpec (perf_chart : String) (c : JValue) : JValue :=
  objGetD (objGetD c "values" (.obj [])) perf_chart (.num 0)

/-- Spec-side top-level performance projection. -/
def performanceSpec (data : JValue) (perf : String) : JValue :=
  .obj [("valueStart", objGetD (objGetD data "performance" (.obj [])) "purchaseValueForInterval" .null),
    ("valueNow", objGetD (objGetD data "performance" (.obj [])) "value" .null),
    ("perf", objGetD (objGetD data "performance" (.obj [])) perf (.num 0))]

/-! ### Well-shapedness predicates -/

/-- The optional value is absent or an object. -/
def isObjOpt : Option JValue → Bool
  | none => true
  | some (.obj _) => true
  | some _ => false

/-- The optional value is absent or a string. -/
def isStrOpt : Option JValue → Bool
  | none => true
  | some (.str _) => true
  | some _ => false

/-- A holding record on which the holding loop cannot raise: an object
whose `assetType` is absent or a string and whose `position`, `asset`,
`sharedAsset` and `performance` are absent or objects. -/
def wellShapedHolding : JValue → Bool
  | .obj kvs =>
    isStrOpt (lookupKV kvs "assetType") && isObjOpt (lookupKV kvs "position") &&
    isObjOpt (lookupKV kvs "asset") && isObjOpt (lookupKV kvs "sharedAsset") &&
    isObjOpt (lookupKV kvs "performance")
  | _ => false

/-- A chart record on which `get_perf_chart` cannot raise: an object
whose `values` is absent or an object. -/
def wellShapedChart : JValue → Bool
  | .obj kvs => isObjOpt (lookupKV kvs "values")
  | _ => false

/-- A weather payload on which `transform_data_tempest` cannot raise. -/
def wellShapedTempest : JValue → Bool
  | .obj kvs =>
    isObjOpt (lookupKV kvs "current_conditions") &&
    (match lookupKV kvs "forecast" with
     | none => true
     | some (.obj fkvs) =>
       (match lookupKV fkvs "daily" with
        | none => true
        | some (.arr ds) => (ds.take 4).all isObjV
        | some _ => false)
     | some _ => false)
  | _ => false

/-- A portfolio payload on which `transform_data_parquet` cannot raise. -/
def wellShapedParquet : JValue → Bool
  | .obj kvs =>
    (match lookupKV kvs "holdings" with
     | none => true
     | some (.arr hs) => hs.all wellShapedHolding
     | some _ => false) &&
    isObjOpt (lookupKV kvs "performance") &&
    (match lookupKV kvs "charts" with
     | none => true
     | some (.arr cs) => (cs.drop 1).all wellShapedChart
     | some _ => false)
  | _ => false

/-! ### Proof kit -/

theorem ebind_ok {α β : Type} (a : α) (f : α → Except String β) :
    (Except.ok a >>= f : Except String β) = f a := rfl

theorem ebind_err {α β : Type} (e : String) (f : α → Except String β) :
    ((Except.error e : Except String α) >>= f : Except String β) = .error e := rfl

theorem epure_eq {α : Type} (a : α) : (pure a : Except String α) = .ok a := rfl

theorem pyDictGet_obj (kvs : List (String × JValue)) (k : String) (d : JValue) :
    pyDictGet (.obj kvs) k d = .ok ((lookupKV kvs k).getD d) := rfl

theorem pyGetItem_obj (kvs : List (String × JValue)) (k : String) :
    pyGetItem (.obj kvs) k =
      (match lookupKV kvs k with
       | some v => .ok v
       | none => .error "KeyError") := rfl

theorem pyContains_obj (kvs : List (String × JValue)) (k : String) :
    pyContains k (.obj kvs) = .ok (lookupKV kvs k).isSome := rfl

theorem ccFields_obj (ckvs : List (String × JValue)) :
    ccFields (.obj ckvs) = .ok (currentSpec (.obj ckvs)) := rfl

theorem dailyFields_obj (dkvs : List (String × JValue)) :
    dailyFields (.obj dkvs) = .ok (dailySpec (.obj dkvs)) := rfl

theorem dailyLoop_all_obj (ds : List JValue) (h : ∀ d ∈ ds, isObjV d = true) :
    dailyLoop ds = .ok (ds.map dailySpec) := by
  induction ds with
  | nil => rfl
  | cons d rest ih =>
    have hd : isObjV d = true := h d (List.mem_cons_self d rest)
    obtain ⟨dkvs, rfl⟩ : ∃ dkvs, d = JValue.obj dkvs := by
      cases d <;> simp_all [isObjV]
    have hrest := ih fun x hx => h x (List.mem_cons_of_mem _ hx)
    simp [dailyLoop, dailyFields_obj, hrest, ebind_ok, epure_eq]

theorem transformCurrent_absent (kvs : List (String × JValue))
    (h : lookupKV kvs "current_conditions" = none) :
    transformCurrent (.obj kvs) = .ok [] := by
  simp [transformCurrent, pyContains_obj, h, ebind_ok, epure_eq]

theorem transformCurrent_present (kvs ckvs : List (String × JValue))
    (h : lookupKV kvs "current_conditions" = some (.obj ckvs)) :
    transformCurrent (.obj kvs) = .ok (currentSpec (.obj ckvs)) := by
  simp [transformCurrent, pyContains_obj, pyGetItem_obj, h, ebind_ok, epure_eq,
    ccFields_obj]

theorem transformDaily_noForecast (kvs : List (String × JValue))
    (h : lookupKV kvs "forecast" = none) :
    transformDaily (.obj kvs) = .ok [] := by
  simp [transformDaily, pyContains_obj, h, ebind_ok, epure_eq]

theorem transformDaily_noDaily (kvs fkvs : List (String × JValue))
    (h : lookupKV kvs "forecast" = some (.obj fkvs))
    (h2 : lookupKV fkvs "daily" = none) :
    transformDaily (.obj kvs) = .ok [] := by
  simp [transformDaily, pyContains_obj, pyGetItem_obj, h, h2, ebind_ok, epure_eq]

theorem transformDaily_daily (kvs fkvs : List (String × JValue)) (ds : List JValue)
    (h : lookupKV kvs "forecast" = some (.obj fkvs))
    (h2 : lookupKV fkvs "daily" = some (.arr ds))
    (h3 : ∀ d ∈ ds.take 4, isObjV d = true) :
    transformDaily (.obj kvs) = .ok ((ds.take 4).map dailySpec) := by
  simp [transformDaily, pyContains_obj, pyGetItem_obj, h, h2, ebind_ok, epure_eq,
    pySliceIter4, dailyLoop_all_obj _ h3]

theorem tempest_compose (data : JValue) (cc : List (String × JValue))
    (daily : List JValue)
    (h1 : transformCurrent data = .ok cc) (h2 : transformDaily data = .ok daily) :
    transform_data_tempest data =
      .ok (.obj [("current_conditions", .obj cc),
        ("forecast", .obj [("daily", .arr daily)])]) := by
  simp [transform_data_tempest, h1, h2, ebind_ok, epure_eq]

theorem tempest_ok_inv (data out : JValue)
    (h : transform_data_tempest data = .ok out) :
    ∃ cc daily, transformCurrent data = .ok cc ∧ transformDaily data = .ok daily ∧
      out = .obj [("current_conditions", .obj cc),
        ("forecast", .obj [("daily", .arr daily)])] := by
  rcases h1 : transformCurrent data with e | cc
  · rw [transform_data_tempest, h1, ebind_err] at h
    exact absurd h (by simp)
  rcases h2 : transformDaily data with e | daily
  · rw [transform_data_tempest, h1, ebind_ok, h2, ebind_err] at h
    exact absurd h (by simp)
  refine ⟨cc, daily, rfl, rfl, ?_⟩
  rw [transform_data_tempest, h1, ebind_ok, h2, ebind_ok] at h
  simpa [epure_eq] using h.symm

theorem getD_isObj (o : Option JValue) (h : isObjOpt o = true) :
    isObjV (o.getD (.obj [])) = true := by
  cases o with
  | none => rfl
  | some v => cases v <;> simp_all [isObjOpt, isObjV]

theorem objGetD_obj (kvs : List (String × JValue)) (k : String) (d : JValue) :
    objGetD (.obj kvs) k d = (lookupKV kvs k).getD d := rfl

theorem pyDictGet_isObj (v : JValue) (h : isObjV v = true) (k : String) (d : JValue) :
    pyDictGet v k d = .ok (objGetD v k d) := by
  cases v <;> simp_all [isObjV, pyDictGet, objGetD, objGet]

theorem pyLower_assetType (kvs : List (String × JValue))
    (h : isStrOpt (lookupKV kvs "assetType") = true) :
    pyLower ((lookupKV kvs "assetType").getD (.str "")) =
      .ok (lowerAssetType (.obj kvs)) := by
  rcases ho : lookupKV kvs "assetType" with _ | v
  · simp [pyLower, lowerAssetType, objGet, ho]
    rfl
  · rw [ho] at h
    cases v <;> simp_all [isStrOpt, pyLower, lowerAssetType, objGet, ho]

theorem transformHolding_eq (perf : String) (hv : JValue)
    (hw : wellShapedHolding hv = true) :
    transformHolding perf hv =
      .ok (if holdingQualifies hv then some (projectHolding perf hv) else none) := by
  obtain ⟨kvs, rfl⟩ : ∃ kvs, hv = JValue.obj kvs := by
    cases hv <;> simp_all [wellShapedHolding]
  rw [wellShapedHolding] at hw
  simp only [Bool.and_eq_true] at hw
  obtain ⟨⟨⟨⟨h1, h2⟩, h3⟩, h4⟩, h5⟩ := hw
  have hpos := getD_isObj _ h2
  have hasset := getD_isObj _ h3
  have hshared := getD_isObj _ h4
  have hperf := getD_isObj _ h5
  have hq : holdingQualifies (JValue.obj kvs) =
      (["security", "crypto"].contains (lowerAssetType (JValue.obj kvs)) &&
       !(truthy (objGetD ((lookupKV kvs "position").getD (.obj [])) "isSold" .null) ||
         pyEqZero (objGetD ((lookupKV kvs "position").getD (.obj [])) "shares" .null))) := by
    simp only [holdingQualifies, objGetD_obj, Bool.not_or, Bool.and_assoc]
  rw [transformHolding, hq]
  simp only [pyDictGet_obj, ebind_ok, pyLower_assetType kvs h1,
    pyDictGet_isObj _ hpos, pyDictGet_isObj _ hasset, pyDictGet_isObj _ hshared,
    pyDictGet_isObj _ hperf, get_perf]
  cases hq1 : ["security", "crypto"].contains (lowerAssetType (JValue.obj kvs)) with
  | false => simp [hq1, epure_eq]
  | true =>
    simp only [hq1, Bool.not_true, Bool.true_and, Bool.false_eq_true, if_false]
    cases hq2 : truthy (objGetD ((lookupKV kvs "position").getD (.obj [])) "isSold" .null) ||
        pyEqZero (objGetD ((lookupKV kvs "position").getD (.obj [])) "shares" .null) with
    | true => simp [hq2, epure_eq]
    | false => simp [hq2, epure_eq, projectHolding, objGetD_obj]

theorem holdingsLoop_eq (perf : String) (hs : List JValue)
    (hw : ∀ h ∈ hs, wellShapedHolding h = true) :
    holdingsLoop perf hs =
      .ok ((hs.filter holdingQualifies).map (projectHolding perf)) := by
  induction hs with
  | nil => rfl
  | cons h rest ih =>
    have hh := hw h (List.mem_cons_self h rest)
    have hrest := ih fun x hx => hw x (List.mem_cons_of_mem _ hx)
    rw [holdingsLoop, transformHolding_eq perf h hh]
    cases hq : holdingQualifies h with
    | false => simp [hq, ebind_ok, hrest, List.filter_cons]
    | true => simp [hq, ebind_ok, hrest, epure_eq, List.filter_cons]

theorem transformHoldings_absent (kvs : List (String × JValue)) (perf : String)
    (h : lookupKV kvs "holdings" = none) :
    transformHoldings (.obj kvs) perf = .ok [] := by
  simp [transformHoldings, pyContains_obj, h, ebind_ok, epure_eq]

theorem transformHoldings_arr (kvs : List (String × JValue)) (hs : List JValue)
    (perf : String) (h : lookupKV kvs "holdings" = some (.arr hs))
    (hw : ∀ x ∈ hs, wellShapedHolding x = true) :
    transformHoldings (.obj kvs) perf =
      .ok ((hs.filter holdingQualifies).map (projectHolding perf)) := by
  simp [transformHoldings, pyContains_obj, pyGetItem_obj, h, pyIter, ebind_ok,
    holdingsLoop_eq perf hs hw]

theorem transformPerformance_eq (kvs : List (String × JValue)) (perf : String)
    (h : isObjOpt (lookupKV kvs "performance") = true) :
    transformPerformance (.obj kvs) perf = .ok (performanceSpec (.obj kvs) perf) := by
  have hp := getD_isObj _ h
  simp [transformPerformance, pyDictGet_obj, ebind_ok, pyDictGet_isObj _ hp,
    get_perf, performanceSpec, objGetD_obj, epure_eq]

theorem get_perf_chart_eq (c : JValue) (pc : String)
    (hc : wellShapedChart c = true) :
    get_perf_chart c pc = .ok (chartScalarSpec pc c) := by
  obtain ⟨kvs, rfl⟩ : ∃ kvs, c = JValue.obj kvs := by
    cases c <;> simp_all [wellShapedChart]
  rw [wellShapedChart] at hc
  have hv := getD_isObj _ hc
  simp [get_perf_chart, pyDictGet_obj, ebind_ok, pyDictGet_isObj _ hv,
    chartScalarSpec, objGetD_obj]

theorem chartsLoop_false (pc : String) (cs : List JValue)
    (hw : ∀ c ∈ cs, wellShapedChart c = true) :
    chartsLoop pc false cs = .ok (cs.map (chartScalarSpec pc)) := by
  induction cs with
  | nil => rfl
  | cons c rest ih =>
    have hc := hw c (List.mem_cons_self c rest)
    have hrest := ih fun x hx => hw x (List.mem_cons_of_mem _ hx)
    simp [chartsLoop, get_perf_chart_eq c pc hc, ebind_ok, hrest, epure_eq]

theorem chartsLoop_true (pc : String) (cs : List JValue)
    (hw : ∀ c ∈ cs.drop 1, wellShapedChart c = true) :
    chartsLoop pc true cs = .ok ((cs.drop 1).map (chartScalarSpec pc)) := by
  cases cs with
  | nil => rfl
  | cons c rest =>
    simpa [chartsLoop] using chartsLoop_false pc rest (by simpa using hw)

theorem transformCharts_absent (kvs : List (String × JValue)) (pc : String)
    (h : lookupKV kvs "charts" = none) :
    transformCharts (.obj kvs) pc = .ok [] := by
  simp [transformCharts, pyContains_obj, h, ebind_ok, epure_eq]

theorem transformCharts_arr (kvs : List (String × JValue)) (cs : List JValue)
    (pc : String) (h : lookupKV kvs "charts" = some (.arr cs))
    (hw : ∀ c ∈ cs.drop 1, wellShapedChart c = true) :
    transformCharts (.obj kvs) pc = .ok ((cs.drop 1).map (chartScalarSpec pc)) := by
  simp [transformCharts, pyContains_obj, pyGetItem_obj, h, pyIter, ebind_ok,
    chartsLoop_true pc cs hw]

theorem parquet_compose (data : JValue) (perf pc : String)
    (hs : List JValue) (pf : JValue) (ch : List JValue)
    (h1 : transformHoldings data perf = .ok hs)
    (h2 : transformPerformance data perf = .ok pf)
    (h3 : transformCharts data pc = .ok ch) :
    transform_data_parquet data perf pc =
      .ok (.obj [("holdings", .arr hs), ("performance", pf), ("chart", .arr ch)]) := by
  simp [transform_data_parquet, h1, h2, h3, ebind_ok, epure_eq]

theorem parquet_ok_inv (data : JValue) (perf pc : String) (out : JValue)
    (h : transform_data_parquet data perf pc = .ok out) :
    ∃ hs pf ch, transformHoldings data perf = .ok hs ∧
      transformPerformance data perf = .ok pf ∧ transformCharts data pc = .ok ch ∧
      out = .obj [("holdings", .arr hs), ("performance", pf), ("chart", .arr ch)] := by
  rcases h1 : transformHoldings data perf with e | hs
  · rw [transform_data_parquet, h1, ebind_err] at h
    exact absurd h (by simp)
  rcases h2 : transformPerformance data perf with e | pf
  · rw [transform_data_parquet, h1, ebind_ok, h2, ebind_err] at h
    exact absurd h (by simp)
  rcases h3 : transformCharts data pc with e | ch
  · rw [transform_data_parquet, h1, ebind_ok, h2, ebind_ok, h3, ebind_err] at h
    exact absurd h (by simp)
  refine ⟨hs, pf, ch, rfl, rfl, rfl, ?_⟩
  rw [transform_data_parquet, h1, ebind_ok, h2, ebind_ok, h3, ebind_ok] at h
  simpa [epure_eq] using h.symm

/-! ### Concrete demonstration payloads (used by the witnesses) -/

/-- Holding with upper-case SECURITY asset type but zero shares. -/
def dH1 : JValue := .obj [("assetType", .str "SECURITY"),
  ("position", .obj [("shares", .num 0)])]

/-- Holding with SECURITY asset type and negative shares (kept). -/
def dH2 : JValue := .obj [("assetType", .str "SECURITY"), ("currency", .str "EUR"),
  ("asset", .obj [("identifier", .str "US123")]),
  ("sharedAsset", .obj [("name", .str "ACME")]),
  ("position", .obj [("shares", .num (-5)), ("currentPrice", .num 7),
    ("currentValue", .num 12)]),
  ("performance", .obj [("priceAtIntervalStart", .num 5),
    ("purchaseValueForInterval", .num 50), ("ttwror", .num 2)])]

/-- Holding with a bond asset type (always dropped). -/
def dH3 : JValue := .obj [("assetType", .str "bond"),
  ("position", .obj [("shares", .num 3)])]

/-- Sold crypto holding (dropped because isSold is truthy). -/
def dH4 : JValue := .obj [("assetType", .str "crypto"),
  ("position", .obj [("isSold", .bool true), ("shares", .num 2)])]

/-- First chart record: not even an object, but skipped unconditionally. -/
def dCh1 : JValue := .num 99

/-- Second chart record with a drawdown value. -/
def dCh2 : JValue := .obj [("values", .obj [("drawdown", .num 3)])]

/-- Third chart record with no values key. -/
def dCh3 : JValue := .obj []

/-- A demonstration portfolio payload. -/
def demoKVs : List (String × JValue) :=
  [("holdings", .arr [dH1, dH2, dH3, dH4]),
   ("performance", .obj [("purchaseValueForInterval", .num 100),
     ("value", .num 110), ("ttwror", .num 4)]),
   ("charts", .arr [dCh1, dCh2, dCh3])]

/-- A demonstration weather payload: current conditions and six daily
forecast entries. -/
def wxDay (n : ℚ) : JValue := .obj [("day_num", .num n), ("air_temp_high", .num (20 + n))]

/-- Current-conditions mapping of the demonstration weather payload. -/
def wxCC : List (String × JValue) := [("air_temperature", .num 21), ("icon", .str "sun")]

/-- The demonstration weather payload fields. -/
def wxKVs : List (String × JValue) :=
  [("current_conditions", .obj wxCC),
   ("forecast", .obj [("daily",
     .arr [wxDay 1, wxDay 2, wxDay 3, wxDay 4, wxDay 5, wxDay 6])])]

/-! ### The claims -/

/-- C1: for every portfolio payload, the transformer keeps a holding if
and only if its lower-cased assetType (missing defaulting to the empty
string, which is rejected) is "security" or "crypto", its
position.isSold is not truthy, and its position.shares does not compare
equal to 0 (`holdingQualifies` spells out exactly these three
conditions; `pyEqZero` excludes only the value 0, so negative or null
shares pass); the survivors appear in the output in their original
order (`List.filter` preserves order), projected by `projectHolding`. -/
theorem holdings_filter_correct (kvs : List (String × JValue)) (hs : List JValue)
    (perf pc : String) (out : JValue)
    (hh : lookupKV kvs "holdings" = some (.arr hs))
    (hw : ∀ x ∈ hs, wellShapedHolding x = true)
    (hok : transform_data_parquet (.obj kvs) perf pc = .ok out) :
    objGet out "holdings" =
      some (.arr ((hs.filter holdingQualifies).map (projectHolding perf))) := by
  obtain ⟨hl, pf, ch, h1, h2, h3, rfl⟩ := parquet_ok_inv _ _ _ _ hok
  rw [transformHoldings_arr kvs hs perf hh hw] at h1
  simp only [Except.ok.injEq] at h1
  subst h1
  rfl

/-- C1 witness: on the demonstration payload only the negative-shares
SECURITY holding survives; zero shares, bond and sold holdings are
dropped. -/
theorem holdings_filter_correct_w :
    (∃ out, transform_data_parquet (.obj demoKVs) "ttwror" "drawdown" = .ok out ∧
      objGet out "holdings" =
        some (.arr (([dH1, dH2, dH3, dH4].filter holdingQualifies).map
          (projectHolding "ttwror")))) ∧
    [dH1, dH2, dH3, dH4].filter holdingQualifies = [dH2] :=
  ⟨⟨_, rfl, holdings_filter_correct demoKVs [dH1, dH2, dH3, dH4] "ttwror" "drawdown" _
      rfl (by decide) rfl⟩, rfl⟩

/-- C2: for every portfolio payload whose charts list has n elements,
the output chart list is the per-record scalar `chartScalarSpec`
(that is, `get_perf_chart`) mapped over all records after the first, in
order, and its length is n - 1 in natural subtraction, i.e.
max(0, n-1); an output therefore exists only with every later record
well-shaped, and a one-element list yields an empty chart list. -/
theorem chart_projection_correct (kvs : List (String × JValue))
    (perf pc : String) (out : JValue)
    (hok : transform_data_parquet (.obj kvs) perf pc = .ok out) :
    (∀ cs, lookupKV kvs "charts" = some (.arr cs) →
      (∀ c ∈ cs.drop 1, wellShapedChart c = true) →
      objGet out "chart" = some (.arr ((cs.drop 1).map (chartScalarSpec pc))) ∧
      ((cs.drop 1).map (chartScalarSpec pc)).length = cs.length - 1) ∧
    (lookupKV kvs "charts" = none → objGet out "chart" = some (.arr [])) := by
  obtain ⟨hl, pf, ch, h1, h2, h3, rfl⟩ := parquet_ok_inv _ _ _ _ hok
  constructor
  · intro cs hc hw
    rw [transformCharts_arr kvs cs pc hc hw] at h3
    simp only [Except.ok.injEq] at h3
    subst h3
    exact ⟨rfl, by simp⟩
  · intro habs
    rw [transformCharts_absent kvs pc habs] at h3
    simp only [Except.ok.injEq] at h3
    subst h3
    rfl

/-- C2 witness: charts `[99, {values: {drawdown: 3}}, {}]` produce the
chart list `[3, 0]` — the first record is skipped even though it is not
an object, and an absent values key yields 0. -/
theorem chart_projection_correct_w :
    (∃ out, transform_data_parquet (.obj demoKVs) "ttwror" "drawdown" = .ok out ∧
      objGet out "chart" =
        some (.arr (([dCh1, dCh2, dCh3].drop 1).map (chartScalarSpec "drawdown"))) ∧
      (([dCh1, dCh2, dCh3].drop 1).map (chartScalarSpec "drawdown")).length =
        [dCh1, dCh2, dCh3].length - 1) ∧
    ([dCh1, dCh2, dCh3].drop 1).map (chartScalarSpec "drawdown") = [.num 3, .num 0] := by
  refine ⟨⟨_, rfl, ?_⟩, rfl⟩
  have h := (chart_projection_correct demoKVs "ttwror" "drawdown" _ rfl).1
    [dCh1, dCh2, dCh3] rfl (by decide)
  exact ⟨h.1, h.2⟩

/-- C3: when the key current_conditions is absent the weather
transformer outputs current_conditions as the empty mapping; when it is
present (as a mapping) the output current_conditions has exactly the 8
named fields of `currentSpec`, each copied with absent-becomes-null
semantics. -/
theorem current_conditions_correct (kvs : List (String × JValue)) (out : JValue)
    (hok : transform_data_tempest (.obj kvs) = .ok out) :
    (lookupKV kvs "current_conditions" = none →
      objGet out "current_conditions" = some (.obj [])) ∧
    (∀ ckvs, lookupKV kvs "current_conditions" = some (.obj ckvs) →
      objGet out "current_conditions" = some (.obj (currentSpec (.obj ckvs)))) := by
  obtain ⟨cc, daily, h1, h2, rfl⟩ := tempest_ok_inv _ _ hok
  constructor
  · intro habs
    rw [transformCurrent_absent kvs habs] at h1
    simp only [Except.ok.injEq] at h1
    subst h1
    rfl
  · intro ckvs hpres
    rw [transformCurrent_present kvs ckvs hpres] at h1
    simp only [Except.ok.injEq] at h1
    subst h1
    rfl

/-- C3 witness: the demonstration weather payload gets the 8-field
projection of its current conditions, and a payload without the key
gets an empty mapping. -/
theorem current_conditions_correct_w :
    (∃ out, transform_data_tempest (.obj wxKVs) = .ok out ∧
      objGet out "current_conditions" = some (.obj (currentSpec (.obj wxCC)))) ∧
    (∃ out, transform_data_tempest (.obj [("other", .num 1)]) = .ok out ∧
      objGet out "current_conditions" = some (.obj [])) :=
  ⟨⟨_, rfl, (current_conditions_correct wxKVs _ rfl).2 wxCC rfl⟩,
   ⟨_, rfl, (current_conditions_correct [("other", .num 1)] _ rfl).1 rfl⟩⟩

/-- C4: the output forecast.daily is the 10-field projection
`dailySpec` mapped over the first four daily records in original order,
with length min(4, input length); when forecast or forecast.daily is
absent it is the empty sequence. -/
theorem forecast_daily_correct (kvs : List (String × JValue)) (out : JValue)
    (hok : transform_data_tempest (.obj kvs) = .ok out) :
    (lookupKV kvs "forecast" = none →
      objGet out "forecast" = some (.obj [("daily", .arr [])])) ∧
    (∀ fkvs, lookupKV kvs "forecast" = some (.obj fkvs) →
      lookupKV fkvs "daily" = none →
      objGet out "forecast" = some (.obj [("daily", .arr [])])) ∧
    (∀ fkvs ds, lookupKV kvs "forecast" = some (.obj fkvs) →
      lookupKV fkvs "daily" = some (.arr ds) →
      (∀ d ∈ ds.take 4, isObjV d = true) →
      objGet out "forecast" =
        some (.obj [("daily", .arr ((ds.take 4).map dailySpec))]) ∧
      ((ds.take 4).map dailySpec).length = min 4 ds.length) := by
  obtain ⟨cc, daily, h1, h2, rfl⟩ := tempest_ok_inv _ _ hok
  refine ⟨?_, ?_, ?_⟩
  · intro habs
    rw [transformDaily_noForecast kvs habs] at h2
    simp only [Except.ok.injEq] at h2
    subst h2
    rfl
  · intro fkvs hf hd
    rw [transformDaily_noDaily kvs fkvs hf hd] at h2
    simp only [Except.ok.injEq] at h2
    subst h2
    rfl
  · intro fkvs ds hf hd hsh
    rw [transformDaily_daily kvs fkvs ds hf hd hsh] at h2
    simp only [Except.ok.injEq] at h2
    subst h2
    exact ⟨rfl, by simp⟩

/-- C4 witness: six daily entries are truncated to the first four, in
order. -/
theorem forecast_daily_correct_w :
    ∃ out, transform_data_tempest (.obj wxKVs) = .ok out ∧
      objGet out "forecast" =
        some (.obj [("daily", .arr
          (([wxDay 1, wxDay 2, wxDay 3, wxDay 4, wxDay 5, wxDay 6].take 4).map
            dailySpec))]) ∧
      (([wxDay 1, wxDay 2, wxDay 3, wxDay 4, wxDay 5, wxDay 6].take 4).map
        dailySpec).length =
        min 4 [wxDay 1, wxDay 2, wxDay 3, wxDay 4, wxDay 5, wxDay 6].length := by
  refine ⟨_, rfl, ?_⟩
  have h := (forecast_daily_correct wxKVs _ rfl).2.2
    [("daily", .arr [wxDay 1, wxDay 2, wxDay 3, wxDay 4, wxDay 5, wxDay 6])]
    [wxDay 1, wxDay 2, wxDay 3, wxDay 4, wxDay 5, wxDay 6] rfl rfl (by decide)
  exact ⟨h.1, h.2⟩

/-- C5: `get_perf m k` returns `m[k]` when present and the number 0
otherwise (the get-with-default form `objGetD m k 0`); `get_perf_chart`
reads the values sub-mapping, an absent values key acting as the empty
mapping, and defaults to 0; in particular the empty mapping and an
explicit zero entry both give 0. -/
theorem get_perf_correct (k : String) :
    (∀ kvs, get_perf (.obj kvs) k = .ok (objGetD (.obj kvs) k (.num 0))) ∧
    (∀ ckvs, isObjOpt (lookupKV ckvs "values") = true →
      get_perf_chart (.obj ckvs) k =
        .ok (objGetD (objGetD (.obj ckvs) "values" (.obj [])) k (.num 0))) ∧
    get_perf (.obj []) "ttwror" = .ok (.num 0) ∧
    get_perf (.obj [("ttwror", .num 0)]) "ttwror" = .ok (.num 0) := by
  refine ⟨fun kvs => rfl, fun ckvs hv => ?_, rfl, rfl⟩
  simpa [chartScalarSpec] using
    get_perf_chart_eq (.obj ckvs) k (by simp [wellShapedChart, hv])

/-- C5 witness: concrete evaluations of both helpers. -/
theorem get_perf_correct_w :
    get_perf (.obj [("ttwror", .num 5)]) "ttwror" =
      .ok (objGetD (.obj [("ttwror", .num 5)]) "ttwror" (.num 0)) ∧
    get_perf_chart (.obj [("values", .obj [("drawdown", .num 3)])]) "drawdown" =
      .ok (objGetD (objGetD (.obj [("values", .obj [("drawdown", .num 3)])])
        "values" (.obj [])) "drawdown" (.num 0)) ∧
    objGetD (.obj [("ttwror", .num 5)]) "ttwror" (.num 0) = .num 5 :=
  ⟨(get_perf_correct "ttwror").1 [("ttwror", .num 5)],
   (get_perf_correct "drawdown").2.1 [("values", .obj [("drawdown", .num 3)])]
     (by decide), rfl⟩

/-- C8: the output performance object is exactly
{valueStart: performance.purchaseValueForInterval or null,
valueNow: performance.value or null, perf: get_perf of the performance
mapping} (`performanceSpec`); with the performance key absent it is
{valueStart: null, valueNow: null, perf: 0}. -/
theorem performance_projection_correct (kvs : List (String × JValue))
    (perf pc : String) (out : JValue)
    (hp : isObjOpt (lookupKV kvs "performance") = true)
    (hok : transform_data_parquet (.obj kvs) perf pc = .ok out) :
    objGet out "performance" = some (performanceSpec (.obj kvs) perf) ∧
    (lookupKV kvs "performance" = none →
      objGet out "performance" =
        some (.obj [("valueStart", .null), ("valueNow", .null), ("perf", .num 0)])) := by
  obtain ⟨hl, pf, ch, h1, h2, h3, rfl⟩ := parquet_ok_inv _ _ _ _ hok
  rw [transformPerformance_eq kvs perf hp] at h2
  simp only [Except.ok.injEq] at h2
  subst h2
  refine ⟨rfl, fun habs => ?_⟩
  have habs2 : performanceSpec (.obj kvs) perf =
      .obj [("valueStart", .null), ("valueNow", .null), ("perf", .num 0)] := by
    simp [performanceSpec, objGetD_obj, habs, objGetD, objGet, lookupKV]
  calc objGet (JValue.obj [("holdings", .arr hl),
        ("performance", performanceSpec (.obj kvs) perf), ("chart", .arr ch)])
        "performance" = some (performanceSpec (.obj kvs) perf) := rfl
    _ = some (.obj [("valueStart", .null), ("valueNow", .null), ("perf", .num 0)]) := by
        rw [habs2]

/-- C8 witness: the demonstration payload's performance projection, and
the null-filled result for a payload without a performance key. -/
theorem performance_projection_correct_w :
    (∃ out, transform_data_parquet (.obj demoKVs) "ttwror" "drawdown" = .ok out ∧
      objGet out "performance" = some (performanceSpec (.obj demoKVs) "ttwror") ∧
      performanceSpec (.obj demoKVs) "ttwror" =
        .obj [("valueStart", .num 100), ("valueNow", .num 110), ("perf", .num 4)]) ∧
    (∃ out, transform_data_parquet (.obj [("other", .num 1)]) "ttwror" "drawdown" =
        .ok out ∧
      objGet out "performance" =
        some (.obj [("valueStart", .null), ("valueNow", .null), ("perf", .num 0)])) :=
  ⟨⟨_, rfl, (performance_projection_correct demoKVs "ttwror" "drawdown" _
      (by decide) rfl).1, rfl⟩,
   ⟨_, rfl, (performance_projection_correct [("other", .num 1)] "ttwror" "drawdown" _
      (by decide) rfl).2 rfl⟩⟩

/-- C10: a surviving holding's output assetType is the lower-cased form
of its input assetType string, not the input copied verbatim. -/
theorem assetType_lowercased (perf : String) (h r : JValue) (s : String)
    (hw : wellShapedHolding h = true)
    (hat : objGet h "assetType" = some (.str s))
    (hok : transformHolding perf h = .ok (some r)) :
    objGet r "assetType" = some (.str (strLower s)) := by
  rw [transformHolding_eq perf h hw] at hok
  cases hq : holdingQualifies h with
  | false => simp [hq] at hok
  | true =>
    simp only [hq, if_true, Except.ok.injEq, Option.some.injEq] at hok
    subst hok
    have hl : lowerAssetType h = strLower s := by
      unfold lowerAssetType
      rw [hat]
    show objGet (projectHolding perf h) "assetType" = some (.str (strLower s))
    simp [projectHolding, objGet, lookupKV, hl]

/-- C10 witness: the surviving holding with input assetType "SECURITY"
carries assetType "security" in the output. -/
theorem assetType_lowercased_w :
    (∃ r, transformHolding "ttwror" dH2 = .ok (some r) ∧
      objGet r "assetType" = some (.str (strLower "SECURITY"))) ∧
    strLower "SECURITY" = "security" := by
  refine ⟨⟨_, rfl, ?_⟩, rfl⟩
  exact assetType_lowercased "ttwror" dH2 _ "SECURITY" (by decide) rfl rfl

/-- C6 counterexample: the transformers are not total on arbitrary JSON
payloads: on a non-mapping payload the membership test `"..." in data`
raises TypeError, and a holding whose assetType is a number makes
`.lower()` raise AttributeError, so neither call returns a result. -/
theorem transformers_not_total_cex :
    transform_data_tempest (.num 0) = .error "TypeError" ∧
    transform_data_parquet
      (.obj [("holdings", .arr [.obj [("assetType", .num 5)]])])
      "ttwror" "drawdown" = .error "AttributeError" := ⟨rfl, rfl⟩

/-- C6 amended: both transformers are total (return a result, never
raise) on every well-shaped payload — one where the payload itself and
each value the code accesses as a mapping is a mapping, assetType
values are strings, and holdings / charts / forecast.daily are arrays;
absent fields degrade to null, 0 or empty containers.  On ill-shaped
values they can raise (see the counterexample). -/
theorem transformers_total_wellShaped (data1 data2 : JValue) (perf pc : String)
    (h1 : wellShapedTempest data1 = true) (h2 : wellShapedParquet data2 = true) :
    (∃ out, transform_data_tempest data1 = .ok out) ∧
    (∃ out, transform_data_parquet data2 perf pc = .ok out) := by
  constructor
  · obtain ⟨kvs, rfl⟩ : ∃ kvs, data1 = JValue.obj kvs := by
      cases data1 <;> simp_all [wellShapedTempest]
    rw [wellShapedTempest] at h1
    simp only [Bool.and_eq_true] at h1
    obtain ⟨hcc, hfc⟩ := h1
    have hcur : ∃ cc, transformCurrent (.obj kvs) = .ok cc := by
      rcases ho : lookupKV kvs "current_conditions" with _ | v
      · exact ⟨[], transformCurrent_absent kvs ho⟩
      · rw [ho] at hcc
        obtain ⟨ckvs, rfl⟩ : ∃ ckvs, v = JValue.obj ckvs := by
          cases v <;> first | exact ⟨_, rfl⟩ | simp_all [isObjOpt]
        exact ⟨_, transformCurrent_present kvs ckvs ho⟩
    have hdaily : ∃ dl, transformDaily (.obj kvs) = .ok dl := by
      rcases hf : lookupKV kvs "forecast" with _ | fv
      · exact ⟨[], transformDaily_noForecast kvs hf⟩
      · rw [hf] at hfc
        obtain ⟨fkvs, rfl⟩ : ∃ fkvs, fv = JValue.obj fkvs := by
          cases fv <;> first | exact ⟨_, rfl⟩ | simp_all
        replace hfc : (match lookupKV fkvs "daily" with
            | none => true
            | some (JValue.arr ds) => (ds.take 4).all isObjV
            | some _ => false) = true := hfc
        rcases hd : lookupKV fkvs "daily" with _ | dv
        · exact ⟨[], transformDaily_noDaily kvs fkvs hf hd⟩
        · rw [hd] at hfc
          obtain ⟨ds, rfl⟩ : ∃ ds, dv = JValue.arr ds := by
            cases dv <;> first | exact ⟨_, rfl⟩ | simp_all
          have hall : ∀ d ∈ ds.take 4, isObjV d = true := by
            simpa [List.all_eq_true] using hfc
          exact ⟨_, transformDaily_daily kvs fkvs ds hf hd hall⟩
    obtain ⟨cc, hcv⟩ := hcur
    obtain ⟨dl, hdv⟩ := hdaily
    exact ⟨_, tempest_compose _ cc dl hcv hdv⟩
  · obtain ⟨kvs, rfl⟩ : ∃ kvs, data2 = JValue.obj kvs := by
      cases data2 <;> simp_all [wellShapedParquet]
    rw [wellShapedParquet] at h2
    simp only [Bool.and_eq_true] at h2
    obtain ⟨⟨hh, hp⟩, hc⟩ := h2
    have hhold : ∃ hl, transformHoldings (.obj kvs) perf = .ok hl := by
      rcases ho : lookupKV kvs "holdings" with _ | v
      · exact ⟨[], transformHoldings_absent kvs perf ho⟩
      · rw [ho] at hh
        obtain ⟨hs, rfl⟩ : ∃ hs, v = JValue.arr hs := by
          cases v <;> first | exact ⟨_, rfl⟩ | simp_all
        have hall : ∀ x ∈ hs, wellShapedHolding x = true := by
          simpa [List.all_eq_true] using hh
        exact ⟨_, transformHoldings_arr kvs hs perf ho hall⟩
    have hch : ∃ ch, transformCharts (.obj kvs) pc = .ok ch := by
      rcases ho : lookupKV kvs "charts" with _ | v
      · exact ⟨[], transformCharts_absent kvs pc ho⟩
      · rw [ho] at hc
        obtain ⟨cs, rfl⟩ : ∃ cs, v = JValue.arr cs := by
          cases v <;> first | exact ⟨_, rfl⟩ | simp_all
        have hall : ∀ c ∈ cs.drop 1, wellShapedChart c = true := by
          simpa [List.all_eq_true] using hc
        exact ⟨_, transformCharts_arr kvs cs pc ho hall⟩
    obtain ⟨hl, hhv⟩ := hhold
    obtain ⟨ch, hchv⟩ := hch
    exact ⟨_, parquet_compose _ perf pc hl _ ch hhv
      (transformPerformance_eq kvs perf hp) hchv⟩

/-- C6 witness: both transformers succeed on the concrete well-shaped
demonstration payloads. -/
theorem transformers_total_wellShaped_w :
    (∃ out, transform_data_tempest (.obj wxKVs) = .ok out) ∧
    (∃ out, transform_data_parquet (.obj demoKVs) "ttwror" "drawdown" = .ok out) :=
  transformers_total_wellShaped (.obj wxKVs) (.obj demoKVs) "ttwror" "drawdown"
    (by decide) (by decide)

/-! ### Endpoint handlers and the error taxonomy

The HTTP glue of src/orbs-proxy.py, with the network abstracted as the
upstream call's observable outcome.  An exception the handler code does
not catch (a pydantic ValidationError escaping the GET branch, or a
transformer TypeError / AttributeError) is modelled as `serverError`;
FastAPI surfaces such an exception as a 500 Internal Server Error, not
as an HTTPException. -/

/-- An HTTPException raised by the proxy: status code and detail. -/
structure HTTPError where
  status : Nat
  detail : String

/-- Observable outcome of the single upstream call: a response with
status code, body text and parsed JSON, or a connection/timeout failure
(httpx.RequestError). -/
inductive UpstreamResult where
  | response (status : Nat) (text : String) (json : JValue)
  | requestError (msg : String)

/-- `fetch_weather_data`: `raise_for_status` turns any non-2xx status
into an HTTPException carrying the upstream status code and the
upstream body text behind the prefix "Weather API error: "; a request
error becomes 502 with a "Proxy error: " message. -/
def fetch_weather_data (r : UpstreamResult) : Except HTTPError JValue :=
  match r with
  | .response status text j =>
    if 200 ≤ status ∧ status ≤ 299 then .ok j
    else .error ⟨status, "Weather API error: " ++ text⟩
  | .requestError msg => .error ⟨502, "Proxy error: " ++ msg⟩

/-- `fetch_parqet_data`: same shape with the "Parqet API error: "
prefix. -/
def fetch_parqet_data (r : UpstreamResult) : Except HTTPError JValue :=
  match r with
  | .response status text j =>
    if 200 ≤ status ∧ status ≤ 299 then .ok j
    else .error ⟨status, "Parqet API error: " ++ text⟩
  | .requestError msg => .error ⟨502, "Proxy error: " ++ msg⟩

/-- What one request produces: a JSON body, an HTTPException, or an
uncaught exception (surfaced by the framework as HTTP 500). -/
inductive Outcome where
  | ok (body : JValue)
  | httpError (status : Nat) (detail : String)
  | serverError (msg : String)

/-- The Literal constraints of the WeatherRequest pydantic model. -/
def weatherEnumsValid (ut uw up upc ud : String) : Bool :=
  (ut == "c" || ut == "f") &&
  (uw == "mph" || uw == "kph" || uw == "m/s") &&
  (up == "mb" || up == "inHg") &&
  (upc == "in" || upc == "mm") &&
  (ud == "mi" || ud == "km")

/-- The Literal constraints of the PortfolioRequest pydantic model. -/
def portfolioEnumsValid (timeframe perf perfChart : String) : Bool :=
  (["today", "1d", "1w", "1m", "3m", "6m", "1y", "5y", "10y", "mtd", "ytd",
    "max"].contains timeframe) &&
  (["returnGross", "returnNet", "totalReturnGross", "totalReturnNet", "ttwror",
    "izf"].contains perf) &&
  (["perfHistory", "perfHistoryUnrealized", "ttwror", "drawdown"].contains perfChart)

/-- A query parameter counts as missing for `not all([...])` /
`not x` when it is absent or the empty string (both falsy). -/
def paramMissing (p : Option String) : Bool := p.getD "" == ""

/-- Fetch-and-transform tail of the tempest handler. -/
def tempestRespond (upstream : UpstreamResult) : Outcome :=
  match fetch_weather_data upstream with
  | .error e => .httpError e.status e.detail
  | .ok raw =>
    match transform_data_tempest raw with
    | .ok out => .ok out
    | .error msg => .serverError msg

/-- Fetch-and-transform tail of the parquet handler. -/
def parquetRespond (perf perfChart : String) (upstream : UpstreamResult) : Outcome :=
  match fetch_parqet_data upstream with
  | .error e => .httpError e.status e.detail
  | .ok raw =>
    match transform_data_parquet raw perf perfChart with
    | .ok out => .ok out
    | .error msg => .serverError msg

/-- GET branch of `proxy_request_tempest`: missing or empty query
parameters give 400 before the upstream call; then the pydantic
constructor runs outside any try block, so an invalid enum value
raises an uncaught ValidationError. -/
def proxy_tempest_get (station_id units_temp units_wind units_pressure
    units_precip units_distance api_key : Option String)
    (upstream : UpstreamResult) : Outcome :=
  if paramMissing station_id || paramMissing units_temp || paramMissing units_wind ||
      paramMissing units_pressure || paramMissing units_precip ||
      paramMissing units_distance || paramMissing api_key then
    .httpError 400 "Missing required query parameters"
  else if !weatherEnumsValid (units_temp.getD "") (units_wind.getD "")
      (units_pressure.getD "") (units_precip.getD "") (units_distance.getD "") then
    .serverError "ValidationError"
  else
    tempestRespond upstream

/-- GET branch of `proxy_request_parquet`: same shape with the four
portfolio parameters. -/
def proxy_parquet_get (id timeframe perf perfChart : Option String)
    (upstream : UpstreamResult) : Outcome :=
  if paramMissing id || paramMissing timeframe || paramMissing perf ||
      paramMissing perfChart then
    .httpError 400 "Missing required query parameters"
  else if !portfolioEnumsValid (timeframe.getD "") (perf.getD "") (perfChart.getD "") then
    .serverError "ValidationError"
  else
    parquetRespond (perf.getD "") (perfChart.getD "") upstream

/-- pydantic validation of a tempest POST body: a mapping whose seven
required fields are strings, with the Literal fields in their allowed
sets (extra keys are ignored). -/
def weatherBodyValid (b : JValue) : Bool :=
  match b with
  | .obj kvs =>
    (match lookupKV kvs "station_id" with
     | some (.str _) => true
     | _ => false) &&
    (match lookupKV kvs "units_temp", lookupKV kvs "units_wind",
        lookupKV kvs "units_pressure", lookupKV kvs "units_precip",
        lookupKV kvs "units_distance" with
     | some (.str ut), some (.str uw), some (.str up), some (.str upc),
         some (.str ud) => weatherEnumsValid ut uw up upc ud
     | _, _, _, _, _ => false) &&
    (match lookupKV kvs "api_key" with
     | some (.str _) => true
     | _ => false)
  | _ => false

/-- pydantic validation of a parquet POST body, returning the perf and
perfChart selections on success. -/
def portfolioBodyFields (b : JValue) : Option (String × String) :=
  match b with
  | .obj kvs =>
    match lookupKV kvs "id", lookupKV kvs "timeframe", lookupKV kvs "perf",
        lookupKV kvs "perfChart" with
    | some (.str _), some (.str tf), some (.str pf), some (.str pcv) =>
      if portfolioEnumsValid tf pf pcv then some (pf, pcv) else none
    | _, _, _, _ => none
  | _ => none

/-- POST branch of `proxy_request_tempest`: the body parse and the
pydantic constructor run inside a try block, so every failure (`none`
models a json() exception) becomes HTTP 400 "Invalid JSON body.". -/
def proxy_tempest_post (body : Option JValue) (upstream : UpstreamResult) : Outcome :=
  match body with
  | none => .httpError 400 "Invalid JSON body."
  | some b =>
    if weatherBodyValid b then tempestRespond upstream
    else .httpError 400 "Invalid JSON body."

/-- POST branch of `proxy_request_parquet`. -/
def proxy_parquet_post (body : Option JValue) (upstream : UpstreamResult) : Outcome :=
  match body with
  | none => .httpError 400 "Invalid JSON body."
  | some b =>
    match portfolioBodyFields b with
    | some (pf, pcv) => parquetRespond pf pcv upstream
    | none => .httpError 400 "Invalid JSON body."

/-- C9 counterexample: a present-but-invalid enum value on a GET request
does not yield HTTP 400 — the pydantic ValidationError escapes the
handler (HTTP 500 via the framework); and the upstream error detail is
not the bare upstream body text but carries the "Weather API error: "
prefix. -/
theorem endpoint_errors_cex :
    proxy_tempest_get (some "st") (some "x") (some "mph") (some "mb") (some "in")
      (some "mi") (some "key") (.response 200 "" (.obj [])) =
      .serverError "ValidationError" ∧
    proxy_tempest_get (some "st") (some "c") (some "mph") (some "mb") (some "in")
      (some "mi") (some "key") (.response 404 "not found" (.obj [])) =
      .httpError 404 "Weather API error: not found" ∧
    "Weather API error: not found" ≠ "not found" := ⟨rfl, rfl, by decide⟩

/-- C9 amended: missing or empty parameters give HTTP 400 before and
independently of the upstream call; a present-but-invalid enum value on
GET raises an uncaught ValidationError (HTTP 500 via the framework),
while on POST every body failure gives 400; an upstream non-2xx
response is surfaced with the upstream status code and the upstream
body text behind the fixed "Weather API error: " / "Parqet API error: "
prefix; a connection or timeout failure gives 502; each outcome is a
single constructor, so no partial transformed result accompanies an
error. -/
theorem endpoint_errors_amended :
    (∀ sid ut uw up upc ud ak upstream,
      (paramMissing sid || paramMissing ut || paramMissing uw || paramMissing up ||
        paramMissing upc || paramMissing ud || paramMissing ak) = true →
      proxy_tempest_get sid ut uw up upc ud ak upstream =
        .httpError 400 "Missing required query parameters") ∧
    (∀ id tf pf pcv upstream,
      (paramMissing id || paramMissing tf || paramMissing pf ||
        paramMissing pcv) = true →
      proxy_parquet_get id tf pf pcv upstream =
        .httpError 400 "Missing required query parameters") ∧
    (∀ sid ut uw up upc ud ak status text j,
      (paramMissing sid || paramMissing ut || paramMissing uw || paramMissing up ||
        paramMissing upc || paramMissing ud || paramMissing ak) = false →
      weatherEnumsValid (ut.getD "") (uw.getD "") (up.getD "") (upc.getD "")
        (ud.getD "") = true →
      ¬(200 ≤ status ∧ status ≤ 299) →
      proxy_tempest_get sid ut uw up upc ud ak (.response status text j) =
        .httpError status ("Weather API error: " ++ text)) ∧
    (∀ id tf pf pcv status text j,
      (paramMissing id || paramMissing tf || paramMissing pf ||
        paramMissing pcv) = false →
      portfolioEnumsValid (tf.getD "") (pf.getD "") (pcv.getD "") = true →
      ¬(200 ≤ status ∧ status ≤ 299) →
      proxy_parquet_get id tf pf pcv (.response status text j) =
        .httpError status ("Parqet API error: " ++ text)) ∧
    (∀ sid ut uw up upc ud ak msg,
      (paramMissing sid || paramMissing ut || paramMissing uw || paramMissing up ||
        paramMissing upc || paramMissing ud || paramMissing ak) = false →
      weatherEnumsValid (ut.getD "") (uw.getD "") (up.getD "") (upc.getD "")
        (ud.getD "") = true →
      proxy_tempest_get sid ut uw up upc ud ak (.requestError msg) =
        .httpError 502 ("Proxy error: " ++ msg)) ∧
    (∀ id tf pf pcv msg,
      (paramMissing id || paramMissing tf || paramMissing pf ||
        paramMissing pcv) = false →
      portfolioEnumsValid (tf.getD "") (pf.getD "") (pcv.getD "") = true →
      proxy_parquet_get id tf pf pcv (.requestError msg) =
        .httpError 502 ("Proxy error: " ++ msg)) ∧
    (∀ sid ut uw up upc ud ak upstream,
      (paramMissing sid || paramMissing ut || paramMissing uw || paramMissing up ||
        paramMissing upc || paramMissing ud || paramMissing ak) = false →
      weatherEnumsValid (ut.getD "") (uw.getD "") (up.getD "") (upc.getD "")
        (ud.getD "") = false →
      proxy_tempest_get sid ut uw up upc ud ak upstream =
        .serverError "ValidationError") ∧
    (∀ id tf pf pcv upstream,
      (paramMissing id || paramMissing tf || paramMissing pf ||
        paramMissing pcv) = false →
      portfolioEnumsValid (tf.getD "") (pf.getD "") (pcv.getD "") = false →
      proxy_parquet_get id tf pf pcv upstream = .serverError "ValidationError") ∧
    (∀ upstream, proxy_tempest_post none upstream =
      .httpError 400 "Invalid JSON body.") ∧
    (∀ upstream, proxy_parquet_post none upstream =
      .httpError 400 "Invalid JSON body.") := by
  refine ⟨?_, ?_, ?_, ?_, ?_, ?_, ?_, ?_, fun _ => rfl, fun _ => rfl⟩
  · intro sid ut uw up upc ud ak upstream hm
    simp [proxy_tempest_get, hm]
  · intro id tf pf pcv upstream hm
    simp [proxy_parquet_get, hm]
  · intro sid ut uw up upc ud ak status text j hm he hs
    simp [proxy_tempest_get, hm, he, tempestRespond, fetch_weather_data, hs]
  · intro id tf pf pcv status text j hm he hs
    simp [proxy_parquet_get, hm, he, parquetRespond, fetch_parqet_data, hs]
  · intro sid ut uw up upc ud ak msg hm he
    simp [proxy_tempest_get, hm, he, tempestRespond, fetch_weather_data]
  · intro id tf pf pcv msg hm he
    simp [proxy_parquet_get, hm, he, parquetRespond, fetch_parqet_data]
  · intro sid ut uw up upc ud ak upstream hm he
    simp [proxy_tempest_get, hm, he]
  · intro id tf pf pcv upstream hm he
    simp [proxy_parquet_get, hm, he]

/-- C9 witness: concrete instances of the amended taxonomy — a missing
parameter, an upstream 500 with prefixed body text, and a connection
timeout. -/
theorem endpoint_errors_amended_w :
    proxy_tempest_get none (some "c") (some "mph") (some "mb") (some "in")
      (some "mi") (some "k") (.response 200 "" (.obj [])) =
      .httpError 400 "Missing required query parameters" ∧
    proxy_parquet_get (some "p1") (some "1y") (some "ttwror") (some "drawdown")
      (.response 500 "boom" .null) = .httpError 500 "Parqet API error: boom" ∧
    proxy_tempest_get (some "st") (some "c") (some "mph") (some "mb") (some "in")
      (some "mi") (some "k") (.requestError "timeout") =
      .httpError 502 "Proxy error: timeout" :=
  ⟨endpoint_errors_amended.1 none (some "c") (some "mph") (some "mb") (some "in")
      (some "mi") (some "k") (.response 200 "" (.obj [])) rfl,
   endpoint_errors_amended.2.2.2.1 (some "p1") (some "1y") (some "ttwror")
      (some "drawdown") 500 "boom" .null rfl rfl (by decide),
   endpoint_errors_amended.2.2.2.2.1 (some "st") (some "c") (some "mph")
      (some "mb") (some "in") (some "mi") (some "k") "timeout" rfl rfl⟩

end OrbsProxy
